import Mathlib

/-!
Formal model of the reporting and metrics aggregation engine of the MSME
backend (src/backend/modules/reports/utils.py, src/backend/modules/reports/models.py,
src/backend/utils/helpers.py), with theorems settling the frozen claims about it.

Conventions of the shallow embedding:
* Python `date`/`datetime` values are modelled at calendar-day granularity by
  `Date` (proleptic Gregorian, year/month/day as naturals).  `timedelta`
  arithmetic is iterated successor/predecessor of days; `(e - s).days` is the
  difference of day ordinals.
* Monetary amounts (Python floats) are modelled as rationals.
* The Mongo collection handle is modelled by `DB`, whose find operations
  return `Except String (List _)`: `.error` models a raised store exception.
  A working store is obtained from a `Store` value via `Store.db`.
  The blanket `try/except` of every calculator is modelled by matching on the
  `Except` results and returning the default record on `.error`.
* Pydantic models become structures whose field defaults mirror the source;
  `Field(..., min_items=1)`-style validation of `ChartData` becomes the
  fallible constructor `mkChartData`.
-/

namespace MsmeReports

/-! ### Calendar dates (model of Python date arithmetic) -/

/-- A calendar date of the proleptic Gregorian calendar. -/
structure Date where
  year : Nat
  month : Nat
  day : Nat
deriving DecidableEq, Repr

/-- Gregorian leap-year rule (Python `calendar.isleap`). -/
def isLeap (y : Nat) : Bool :=
  decide ((y % 4 = 0 ∧ y % 100 ≠ 0) ∨ y % 400 = 0)

/-- Number of days of month `m` of year `y` (Python `calendar.monthrange(y, m)[1]`). -/
def daysInMonth (y m : Nat) : Nat :=
  if m = 2 then (if isLeap y then 29 else 28)
  else if m = 4 ∨ m = 6 ∨ m = 9 ∨ m = 11 then 30
  else 31

/-- Days of year `y` that lie before month `m` (months are 1-based). -/
def daysBeforeMonth (y : Nat) : Nat → Nat
  | 0 => 0
  | m + 1 => daysBeforeMonth y m + (if m = 0 then 0 else daysInMonth y m)

/-- Number of leap years strictly before year `y` (year 0 counts as leap). -/
def leapsBefore (y : Nat) : Nat :=
  (y + 3) / 4 - (y + 99) / 100 + (y + 399) / 400

/-- Number of days strictly before January 1 of year `y`, counted from
January 1 of year 0. -/
def daysBeforeYear (y : Nat) : Nat :=
  365 * y + leapsBefore y

/-- Day ordinal of a date: days elapsed since January 1 of year 0.  Differences
of ordinals model Python `(d2 - d1).days`; comparisons of ordinals model
Python date/datetime comparison. -/
def Date.ord (d : Date) : Nat :=
  daysBeforeYear d.year + daysBeforeMonth d.year d.month + (d.day - 1)

/-- A structurally well-formed calendar date. -/
def Date.Valid (d : Date) : Prop :=
  1 ≤ d.month ∧ d.month ≤ 12 ∧ 1 ≤ d.day ∧ d.day ≤ daysInMonth d.year d.month

instance (d : Date) : Decidable d.Valid := by
  unfold Date.Valid
  infer_instance

/-- Successor day (Python `d + timedelta(days=1)`). -/
def Date.nextDay (d : Date) : Date :=
  if d.day < daysInMonth d.year d.month then ⟨d.year, d.month, d.day + 1⟩
  else if d.month < 12 then ⟨d.year, d.month + 1, 1⟩
  else ⟨d.year + 1, 1, 1⟩

/-- Predecessor day (Python `d - timedelta(days=1)`). -/
def Date.prevDay (d : Date) : Date :=
  if 1 < d.day then ⟨d.year, d.month, d.day - 1⟩
  else if 1 < d.month then ⟨d.year, d.month - 1, daysInMonth d.year (d.month - 1)⟩
  else ⟨d.year - 1, 12, 31⟩

/-- Python `d + timedelta(days=n)`. -/
def Date.addDays (d : Date) : Nat → Date
  | 0 => d
  | n + 1 => d.nextDay.addDays n

/-- Python `d - timedelta(days=n)`. -/
def Date.subDays (d : Date) : Nat → Date
  | 0 => d
  | n + 1 => d.prevDay.subDays n

/-- Boolean comparison of dates by ordinal (Python `d1 <= d2`). -/
def dateLE (a b : Date) : Bool :=
  decide (a.ord ≤ b.ord)

/-- Weekday index with Monday = 0 (Python `date.weekday()`). -/
def Date.weekday (d : Date) : Nat :=
  (d.ord + 5) % 7

/-- English weekday name (Python `strftime("%A")`). -/
def dayName (w : Nat) : String :=
  match w with
  | 0 => "Monday"
  | 1 => "Tuesday"
  | 2 => "Wednesday"
  | 3 => "Thursday"
  | 4 => "Friday"
  | 5 => "Saturday"
  | _ => "Sunday"

theorem one_le_daysInMonth (y m : Nat) : 1 ≤ daysInMonth y m := by
  unfold daysInMonth
  split
  · split <;> omega
  · split <;> omega

theorem daysInMonth_le_31 (y m : Nat) : daysInMonth y m ≤ 31 := by
  unfold daysInMonth
  split
  · split <;> omega
  · split <;> omega

theorem Date.Valid.nextDay {d : Date} (h : d.Valid) : d.nextDay.Valid := by
  obtain ⟨y, m, dd⟩ := d
  obtain ⟨hm1, hm2, hd1, hd2⟩ := h
  unfold Date.nextDay Date.Valid
  dsimp only at *
  by_cases h1 : dd < daysInMonth y m
  · simp only [if_pos h1]
    exact ⟨hm1, hm2, by omega, by omega⟩
  · simp only [if_neg h1]
    by_cases h2 : m < 12
    · simp only [if_pos h2]
      exact ⟨by omega, by omega, le_refl 1, one_le_daysInMonth _ _⟩
    · simp only [if_neg h2]
      exact ⟨le_refl 1, by omega, le_refl 1, one_le_daysInMonth _ _⟩

theorem daysBeforeMonth_succ (y m : Nat) (hm : 1 ≤ m) :
    daysBeforeMonth y (m + 1) = daysBeforeMonth y m + daysInMonth y m := by
  cases m with
  | zero => omega
  | succ k => simp [daysBeforeMonth]

theorem daysBeforeMonth_thirteen (y : Nat) :
    daysBeforeMonth y 13 = if isLeap y then 366 else 365 := by
  by_cases hL : isLeap y <;> norm_num [daysBeforeMonth, daysInMonth, hL]

theorem daysBeforeYear_succ (y : Nat) :
    daysBeforeYear (y + 1) = daysBeforeYear y + 365 + (if isLeap y then 1 else 0) := by
  unfold daysBeforeYear leapsBefore isLeap
  by_cases h4 : y % 4 = 0 <;> by_cases h100 : y % 100 = 0 <;> by_cases h400 : y % 400 = 0 <;>
    simp [h4, h100, h400] <;> omega

theorem Date.ord_nextDay {d : Date} (h : d.Valid) : d.nextDay.ord = d.ord + 1 := by
  obtain ⟨y, m, dd⟩ := d
  obtain ⟨hm1, hm2, hd1, hd2⟩ := h
  dsimp only at hm1 hm2 hd1 hd2
  unfold Date.nextDay
  by_cases h1 : dd < daysInMonth y m
  · simp only [if_pos h1, Date.ord]
    omega
  · simp only [if_neg h1]
    have hdd : dd = daysInMonth y m := by omega
    by_cases h2 : m < 12
    · simp only [if_pos h2, Date.ord]
      rw [daysBeforeMonth_succ y m hm1]
      have := one_le_daysInMonth y m
      omega
    · have hm12 : m = 12 := by omega
      subst hm12
      rw [if_neg (by omega : ¬ (12 < 12))]
      simp only [Date.ord]
      rw [daysBeforeYear_succ y]
      have h13 := daysBeforeMonth_succ y 12 (by omega)
      have h334 := daysBeforeMonth_thirteen y
      have hdim : daysInMonth y 12 = 31 := by norm_num [daysInMonth]
      have hbm1 : daysBeforeMonth (y + 1) 1 = 0 := by norm_num [daysBeforeMonth]
      rw [hdim] at hdd h13
      norm_num at h13
      rw [hbm1]
      by_cases hL : isLeap y <;> simp [hL] at h334 ⊢ <;> omega

theorem Date.Valid.addDays {d : Date} (h : d.Valid) (n : Nat) : (d.addDays n).Valid := by
  induction n generalizing d with
  | zero => exact h
  | succ k ih => exact ih h.nextDay

theorem Date.ord_addDays {d : Date} (h : d.Valid) (n : Nat) :
    (d.addDays n).ord = d.ord + n := by
  induction n generalizing d with
  | zero => rfl
  | succ k ih =>
    have h1 : (d.addDays (k + 1)) = (d.nextDay.addDays k) := rfl
    rw [h1, ih h.nextDay, Date.ord_nextDay ⟨h.1, h.2.1, h.2.2.1, h.2.2.2⟩]
    omega

/-! ### Data model (invoices, customers, the data store) -/

/-- An invoice document as stored in the `invoices` collection.  Fields not
read by the reporting module are omitted; `created_at` is kept at calendar-day
granularity (the Mongo queries only ever compare it against whole-day
boundaries built with `datetime.combine(d, min/max time)`). -/
structure Invoice where
  user_id : String
  customer_id : Option String := none
  total_amount : ℚ := 0
  payment_status : String := "pending"
  status : String := "draft"
  created_at : Date
deriving DecidableEq, Repr

/-- A customer document as stored in the `customers` collection. -/
structure Customer where
  user_id : String
  id : String
  name : String := "Unknown"
  created_at : Date
deriving DecidableEq, Repr

/-- The content of the document store. -/
structure Store where
  invoices : List Invoice
  customers : List Customer
deriving DecidableEq, Repr

/-- The data-store interface seen by the reporting module: each `find(...)`
either returns the matching documents or raises (modelled by `.error`). -/
structure DB where
  findInvoices : (Invoice → Bool) → Except String (List Invoice)
  findCustomers : (Customer → Bool) → Except String (List Customer)

/-- A working store: every query succeeds and returns the matching documents. -/
def Store.db (st : Store) : DB where
  findInvoices := fun p => .ok (st.invoices.filter p)
  findCustomers := fun p => .ok (st.customers.filter p)

/-- A store-unavailable condition: every query raises. -/
def failDB (msg : String) : DB where
  findInvoices := fun _ => .error msg
  findCustomers := fun _ => .error msg

/-- Mongo filter `{user_id: uid, created_at: {$gte: start-of-s, $lte: end-of-e}}`. -/
def invoiceUserWindowP (uid : String) (s e : Date) : Invoice → Bool :=
  fun i => i.user_id == uid && (dateLE s i.created_at && dateLE i.created_at e)

/-- Mongo filter `{user_id: uid, payment_status: "paid", created_at: {...window...}}`. -/
def invoicePaidWindowP (uid : String) (s e : Date) : Invoice → Bool :=
  fun i => i.user_id == uid && i.payment_status == "paid" &&
    (dateLE s i.created_at && dateLE i.created_at e)

/-- Mongo filter `{user_id: uid, payment_status: "paid"}` (no date scope). -/
def invoicePaidP (uid : String) : Invoice → Bool :=
  fun i => i.user_id == uid && i.payment_status == "paid"

/-- Mongo filter `{user_id: uid}` on customers. -/
def customerUserP (uid : String) : Customer → Bool :=
  fun c => c.user_id == uid

/-- Mongo filter `{user_id: uid, created_at: {...window...}}` on customers. -/
def customerUserWindowP (uid : String) (s e : Date) : Customer → Bool :=
  fun c => c.user_id == uid && (dateLE s c.created_at && dateLE c.created_at e)

/-- Invoices of `uid` created inside the inclusive window `[s, e]`. -/
def Store.invoicesInWindow (st : Store) (uid : String) (s e : Date) : List Invoice :=
  st.invoices.filter (invoiceUserWindowP uid s e)

/-- Paid invoices of `uid` created inside the inclusive window `[s, e]`. -/
def Store.paidInWindow (st : Store) (uid : String) (s e : Date) : List Invoice :=
  st.invoices.filter (invoicePaidWindowP uid s e)

/-- Python `sum(x.get("total_amount", 0) for x in l)`. -/
def amountSum (l : List Invoice) : ℚ :=
  (l.map (·.total_amount)).sum

/-- Sum of paid invoice totals of `uid` inside the window `[s, e]` — the
"revenue" metric of the growth routine. -/
def Store.windowPaidRevenue (st : Store) (uid : String) (s e : Date) : ℚ :=
  amountSum (st.paidInWindow uid s e)

/-- Paid invoices of `uid` created on the single day `d`. -/
def Store.paidOnDay (st : Store) (uid : String) (d : Date) : List Invoice :=
  st.invoices.filter (invoicePaidWindowP uid d d)

/-! ### Pydantic models of `modules/reports/models.py` (claim-relevant ones) -/

/-- Model of `FinancialMetrics`; field defaults as in the source. -/
structure FinancialMetrics where
  total_revenue : ℚ := 0
  total_invoices : Nat := 0
  paid_invoices : Nat := 0
  pending_invoices : Nat := 0
  overdue_invoices : Nat := 0
  average_invoice_value : ℚ := 0
  total_outstanding : ℚ := 0
  collection_rate : ℚ := 0
  growth_rate : ℚ := 0
  profit_margin : ℚ := 0
deriving DecidableEq, Repr

/-- One entry of the daily sales-trend series (source builds a dict with keys
`date`, `sales`, `count`; the ISO date string is kept as the `Date` itself). -/
structure TrendEntry where
  date : Date
  sales : ℚ
  count : Nat
deriving DecidableEq, Repr

/-- One entry of the top-selling-periods ranking (dict with keys `period`, `sales`). -/
structure PeriodSales where
  period : String
  sales : ℚ
deriving DecidableEq, Repr

/-- Model of `SalesMetrics`; field defaults as in the source. -/
structure SalesMetrics where
  total_sales : ℚ := 0
  sales_count : Nat := 0
  average_sale_value : ℚ := 0
  top_selling_periods : List PeriodSales := []
  sales_trend : List TrendEntry := []
  conversion_rate : ℚ := 0
  recurring_revenue : ℚ := 0
deriving DecidableEq, Repr

/-- One entry of the top-customers list (dict with keys `id`, `name`, `value`). -/
structure TopCustomer where
  id : String
  name : String
  value : ℚ
deriving DecidableEq, Repr

/-- Model of `CustomerMetrics`; field defaults as in the source.  The source
only ever assigns the empty list to `customer_segments`. -/
structure CustomerMetrics where
  total_customers : Nat := 0
  active_customers : Nat := 0
  new_customers : Nat := 0
  customer_retention_rate : ℚ := 0
  average_customer_value : ℚ := 0
  top_customers : List TopCustomer := []
  customer_segments : List String := []
  churn_rate : ℚ := 0
deriving DecidableEq, Repr

/-! ### Dict accumulation and Python stable sorting -/

/-- Python `acc[k] = acc.get(k, 0) + amt` on an insertion-ordered dict,
modelled as an association list that keeps first-encountered key order. -/
def addAmount (acc : List (String × ℚ)) (k : String) (amt : ℚ) : List (String × ℚ) :=
  match acc with
  | [] => [(k, amt)]
  | (k1, v) :: rest => if k1 = k then (k1, v + amt) :: rest else (k1, v) :: addAmount rest k amt

/-- Python `acc[k] = acc.get(k, 0) + 1` on an insertion-ordered dict. -/
def addCount (acc : List (String × Nat)) (k : String) : List (String × Nat) :=
  match acc with
  | [] => [(k, 1)]
  | (k1, v) :: rest => if k1 = k then (k1, v + 1) :: rest else (k1, v) :: addCount rest k

/-- Ordering used by `sorted(items, key=lambda x: x[1], reverse=True)`:
descending by the numeric component.  Python sorting is stable, and with
`reverse=True` ties keep their original relative order; `List.insertionSort`
with this non-strict relation has exactly that behaviour. -/
def descSnd : (String × ℚ) → (String × ℚ) → Prop :=
  fun a b => b.2 ≤ a.2

instance : DecidableRel descSnd :=
  fun a b => inferInstanceAs (Decidable (b.2 ≤ a.2))

instance : IsTotal (String × ℚ) descSnd :=
  ⟨fun a b => le_total b.2 a.2⟩

instance : IsTrans (String × ℚ) descSnd :=
  ⟨fun _ _ _ h1 h2 => le_trans h2 h1⟩

/-- Python stable descending sort by the second component. -/
def sortDescSnd (l : List (String × ℚ)) : List (String × ℚ) :=
  l.insertionSort descSnd

/-! ### The reporting functions of `modules/reports/utils.py` -/

/-- Model of `ReportsUtils._calculate_growth_rate`.  The `metric_type`
argument is accepted but, as in the source, never inspected: both queries are
paid-invoice revenue queries.  The trailing `try/except` returning `0.0`
becomes the wildcard match arm. -/
def calculate_growth_rate (db : DB) (user_id : String) (start_date end_date : Date)
    (metric_type : String) : ℚ :=
  let period_days := end_date.ord - start_date.ord
  let prev_end_date := start_date.subDays 1
  let prev_start_date := prev_end_date.subDays period_days
  match db.findInvoices (invoicePaidWindowP user_id start_date end_date),
        db.findInvoices (invoicePaidWindowP user_id prev_start_date prev_end_date) with
  | .ok current_invoices, .ok prev_invoices =>
    let current_value := amountSum current_invoices
    let prev_value := amountSum prev_invoices
    if prev_value = 0 then (if current_value > 0 then 100 else 0)
    else (current_value - prev_value) / prev_value * 100
  | _, _ => 0

/-- Body of the `while current_date <= end_date` loop of
`ReportsUtils._calculate_sales_trend`, with an explicit fuel so the recursion
is structural; the caller passes enough fuel for every iteration the Python
loop performs. -/
def sales_trend_loop (db : DB) (user_id : String) (end_date : Date) :
    Nat → Date → Except String (List TrendEntry)
  | 0, _ => .ok []
  | fuel + 1, current_date =>
    if dateLE current_date end_date then
      match db.findInvoices (invoicePaidWindowP user_id current_date current_date) with
      | .error msg => .error msg
      | .ok daily_sales =>
        match sales_trend_loop db user_id end_date fuel current_date.nextDay with
        | .error msg => .error msg
        | .ok rest =>
          .ok ({ date := current_date, sales := amountSum daily_sales,
                 count := daily_sales.length } :: rest)
    else .ok []

/-- Model of `ReportsUtils._calculate_sales_trend`; the surrounding
`try/except` returning `[]` becomes the match on the loop result. -/
def calculate_sales_trend (db : DB) (user_id : String) (start_date end_date : Date) :
    List TrendEntry :=
  match sales_trend_loop db user_id end_date (end_date.ord + 1 - start_date.ord) start_date with
  | .ok l => l
  | .error _ => []

/-- Model of `ReportsUtils._calculate_top_selling_periods`: group the given
sales by weekday name, sort descending by amount (stable), take the top 3.
The body performs no store access, so its `try/except` is dead and omitted. -/
def calculate_top_selling_periods (sales : List Invoice) : List PeriodSales :=
  let day_sales := sales.foldl
    (fun acc sale => addAmount acc (dayName sale.created_at.weekday) sale.total_amount) []
  let top_periods := (sortDescSnd day_sales).map (fun p => { period := p.1, sales := p.2 })
  top_periods.take 3

/-- Model of `ReportsUtils.get_financial_metrics`.  The blanket `try/except`
returning `FinancialMetrics()` becomes the `.error` arm of the single store
query the body performs. -/
def get_financial_metrics (db : DB) (user_id : String) (start_date end_date : Date) :
    FinancialMetrics :=
  match db.findInvoices (invoiceUserWindowP user_id start_date end_date) with
  | .error _ => {}
  | .ok invoices =>
    if invoices.isEmpty then {}
    else
      let total_invoices := invoices.length
      let paid_invoices := (invoices.filter (fun i => i.payment_status == "paid")).length
      let pending_invoices := (invoices.filter (fun i => i.payment_status == "pending")).length
      let overdue_invoices := (invoices.filter (fun i => i.status == "overdue")).length
      let total_revenue := amountSum (invoices.filter (fun i => i.payment_status == "paid"))
      let total_outstanding := amountSum (invoices.filter (fun i => i.payment_status != "paid"))
      let average_invoice_value : ℚ :=
        if paid_invoices > 0 then total_revenue / paid_invoices else 0
      let collection_rate : ℚ :=
        if total_invoices > 0 then (paid_invoices : ℚ) / total_invoices * 100 else 0
      let growth_rate := calculate_growth_rate db user_id start_date end_date "revenue"
      { total_revenue := total_revenue
        total_invoices := total_invoices
        paid_invoices := paid_invoices
        pending_invoices := pending_invoices
        overdue_invoices := overdue_invoices
        average_invoice_value := average_invoice_value
        total_outstanding := total_outstanding
        collection_rate := collection_rate
        growth_rate := growth_rate
        profit_margin := 85 }

/-- Model of `ReportsUtils.get_sales_metrics`; the blanket `try/except`
returning `SalesMetrics()` becomes the `.error` arm (the trend helper catches
its own errors internally, as in the source). -/
def get_sales_metrics (db : DB) (user_id : String) (start_date end_date : Date) :
    SalesMetrics :=
  match db.findInvoices (invoicePaidWindowP user_id start_date end_date) with
  | .error _ => {}
  | .ok sales =>
    if sales.isEmpty then {}
    else
      let total_sales := amountSum sales
      let sales_count := sales.length
      let average_sale_value : ℚ := if sales_count > 0 then total_sales / sales_count else 0
      let sales_trend := calculate_sales_trend db user_id start_date end_date
      let top_selling_periods := calculate_top_selling_periods sales
      { total_sales := total_sales
        sales_count := sales_count
        average_sale_value := average_sale_value
        top_selling_periods := top_selling_periods
        sales_trend := sales_trend
        conversion_rate := 75
        recurring_revenue := total_sales * (6 / 10) }

/-- Model of `ReportsUtils.get_customer_metrics`; the blanket `try/except`
returning `CustomerMetrics()` becomes the `.error` arms of the four store
queries the body performs, in source order. -/
def get_customer_metrics (db : DB) (user_id : String) (start_date end_date : Date) :
    CustomerMetrics :=
  match db.findCustomers (customerUserP user_id) with
  | .error _ => {}
  | .ok all_customers =>
    match db.findCustomers (customerUserWindowP user_id start_date end_date) with
    | .error _ => {}
    | .ok new_customers =>
      match db.findInvoices (invoicePaidP user_id) with
      | .error _ => {}
      | .ok invoices =>
        match db.findInvoices (invoiceUserWindowP user_id start_date end_date) with
        | .error _ => {}
        | .ok period_invoices =>
          let total_customers := all_customers.length
          let new_customers_count := new_customers.length
          let customer_values := invoices.foldl
            (fun acc invoice =>
              match invoice.customer_id with
              | some cid => if cid ≠ "" then addAmount acc cid invoice.total_amount else acc
              | none => acc) []
          let top_customers := ((sortDescSnd customer_values).take 5).filterMap
            (fun p =>
              match all_customers.find? (fun c => c.id == p.1) with
              | some customer => some { id := p.1, name := customer.name, value := p.2 }
              | none => none)
          let total_customer_value := (customer_values.map (·.2)).sum
          let average_customer_value : ℚ :=
            if total_customers > 0 then total_customer_value / (total_customers : ℚ) else 0
          let active_customer_ids := period_invoices.foldl
            (fun acc invoice =>
              match invoice.customer_id with
              | some cid =>
                if cid ≠ "" then (if cid ∈ acc then acc else acc ++ [cid]) else acc
              | none => acc) ([] : List String)
          let active_customers := active_customer_ids.length
          { total_customers := total_customers
            active_customers := active_customers
            new_customers := new_customers_count
            customer_retention_rate := 90
            average_customer_value := average_customer_value
            top_customers := top_customers
            customer_segments := []
            churn_rate := 5 }

/-! ### Chart data (models.py `ChartData` and `generate_chart_data`) -/

/-- One element of a `ChartData.data` series; the source stores plain dicts of
three shapes (trend entries, status counts, top-customer entries). -/
inductive ChartRow where
  | trend (e : TrendEntry)
  | statusCount (status : String) (count : Nat)
  | customer (c : TopCustomer)
deriving DecidableEq, Repr

/-- Model of the pydantic `ChartData` model. -/
structure ChartData where
  chart_type : String
  title : String
  data : List ChartRow
  x_axis : String
  y_axis : String
  colors : List String := []
  description : Option String := none
deriving DecidableEq, Repr

/-- Constructing a `ChartData` value runs the pydantic field validators:
`min_length=1` on the four string fields and `min_items=1` on `data`.  A
violation raises a `ValidationError`, modelled as `.error`. -/
def mkChartData (chart_type title : String) (data : List ChartRow) (x_axis y_axis : String)
    (colors : List String) (description : Option String) : Except String ChartData :=
  if chart_type.length < 1 then .error "chart_type: ensure this value has at least 1 characters"
  else if title.length < 1 then .error "title: ensure this value has at least 1 characters"
  else if data.length < 1 then .error "data: ensure this value has at least 1 items"
  else if x_axis.length < 1 then .error "x_axis: ensure this value has at least 1 characters"
  else if y_axis.length < 1 then .error "y_axis: ensure this value has at least 1 characters"
  else .ok { chart_type := chart_type, title := title, data := data, x_axis := x_axis,
             y_axis := y_axis, colors := colors, description := description }

/-- Fallible body of `ReportsUtils.generate_chart_data`: each branch builds
its chart list; a store error or a `ChartData` validation error aborts it. -/
def generate_chart_data_body (db : DB) (user_id chart_type : String)
    (start_date end_date : Date) : Except String (List ChartData) :=
  if chart_type == "revenue_trend" then
    let trend_data := calculate_sales_trend db user_id start_date end_date
    match mkChartData "line" "Revenue Trend" (trend_data.map ChartRow.trend) "date" "sales"
        ["#3B82F6"] (some "Daily revenue trend over the selected period") with
    | .error msg => .error msg
    | .ok c => .ok [c]
  else if chart_type == "invoice_status" then
    match db.findInvoices (invoiceUserWindowP user_id start_date end_date) with
    | .error msg => .error msg
    | .ok invoices =>
      let status_counts := invoices.foldl (fun acc invoice => addCount acc invoice.payment_status) []
      let chart_data := status_counts.map (fun p => ChartRow.statusCount p.1 p.2)
      match mkChartData "pie" "Invoice Status Distribution" chart_data "status" "count"
          ["#10B981", "#F59E0B", "#EF4444"] (some "Distribution of invoice statuses") with
      | .error msg => .error msg
      | .ok c => .ok [c]
  else if chart_type == "top_customers" then
    let customer_metrics := get_customer_metrics db user_id start_date end_date
    match mkChartData "bar" "Top Customers by Revenue"
        (customer_metrics.top_customers.map ChartRow.customer) "name" "value"
        ["#8B5CF6"] (some "Top customers ranked by total revenue") with
    | .error msg => .error msg
    | .ok c => .ok [c]
  else .ok []

/-- Model of `ReportsUtils.generate_chart_data`: the blanket `try/except`
returning `[]` catches any error of the body. -/
def generate_chart_data (db : DB) (user_id chart_type : String)
    (start_date end_date : Date) : List ChartData :=
  match generate_chart_data_body db user_id chart_type start_date end_date with
  | .ok charts => charts
  | .error _ => []

/-! ### Period resolution (`utils/helpers.py get_date_range`) -/

/-- Model of `get_date_range` at calendar-day granularity; `today` is the
wall-clock date at request time.  The `month` branch reproduces the source
computation `today.replace(day=28) + timedelta(days=4)` followed by
subtracting that value's day-of-month. -/
def get_date_range (period : String) (today : Date) : Date × Date :=
  if period == "today" then (today, today)
  else if period == "week" then
    let start_date := today.subDays today.weekday
    (start_date, start_date.addDays 6)
  else if period == "month" then
    let start_date : Date := { year := today.year, month := today.month, day := 1 }
    let next_month := ({ year := today.year, month := today.month, day := 28 } : Date).addDays 4
    (start_date, next_month.subDays next_month.day)
  else if period == "quarter" then
    let quarter := (today.month - 1) / 3 + 1
    let start_date : Date := { year := today.year, month := 3 * quarter - 2, day := 1 }
    let qend : Date := { year := today.year, month := 3 * quarter, day := 1 }
    (start_date, { qend with day := daysInMonth qend.year qend.month })
  else if period == "year" then
    ({ year := today.year, month := 1, day := 1 }, { year := today.year, month := 12, day := 31 })
  else (today.subDays 30, today)

/-! ### Generic unfolding lemmas -/

theorem db_findInvoices (st : Store) (p : Invoice → Bool) :
    st.db.findInvoices p = .ok (st.invoices.filter p) := rfl

theorem db_findCustomers (st : Store) (p : Customer → Bool) :
    st.db.findCustomers p = .ok (st.customers.filter p) := rfl

/-- Running the growth-rate routine against a working store reduces to the
closed-form comparison of the two window revenues. -/
theorem calculate_growth_rate_db (st : Store) (uid : String) (s e : Date) (mt : String) :
    calculate_growth_rate st.db uid s e mt =
      (if st.windowPaidRevenue uid ((s.subDays 1).subDays (e.ord - s.ord)) (s.subDays 1) = 0 then
        (if 0 < st.windowPaidRevenue uid s e then 100 else 0)
      else
        (st.windowPaidRevenue uid s e -
            st.windowPaidRevenue uid ((s.subDays 1).subDays (e.ord - s.ord)) (s.subDays 1)) /
          st.windowPaidRevenue uid ((s.subDays 1).subDays (e.ord - s.ord)) (s.subDays 1) * 100) :=
  rfl

/-! ### Claim C1: the growth-rate routine -/

/-- C1.  For every user and window `[s, e]` with `s ≤ e`, the growth-rate
routine compares the paid-invoice revenue of the window against that of the
previous window of identical length (inclusive end `s − 1` day, start that
minus `(e − s)` days) and returns 100.0 when the previous sum is 0 and the
current sum is positive, 0.0 when both sums are 0, and otherwise
`(current − previous) / previous × 100`. -/
theorem growth_rate_previous_window_comparison (st : Store) (uid : String) (s e : Date)
    (hse : s.ord ≤ e.ord) :
    (st.windowPaidRevenue uid ((s.subDays 1).subDays (e.ord - s.ord)) (s.subDays 1) = 0 →
      0 < st.windowPaidRevenue uid s e →
      calculate_growth_rate st.db uid s e "revenue" = 100) ∧
    (st.windowPaidRevenue uid ((s.subDays 1).subDays (e.ord - s.ord)) (s.subDays 1) = 0 →
      st.windowPaidRevenue uid s e = 0 →
      calculate_growth_rate st.db uid s e "revenue" = 0) ∧
    (st.windowPaidRevenue uid ((s.subDays 1).subDays (e.ord - s.ord)) (s.subDays 1) ≠ 0 →
      calculate_growth_rate st.db uid s e "revenue" =
        (st.windowPaidRevenue uid s e -
            st.windowPaidRevenue uid ((s.subDays 1).subDays (e.ord - s.ord)) (s.subDays 1)) /
          st.windowPaidRevenue uid ((s.subDays 1).subDays (e.ord - s.ord)) (s.subDays 1) * 100) := by
  refine ⟨fun h1 h2 => ?_, fun h1 h2 => ?_, fun h1 => ?_⟩
  · rw [calculate_growth_rate_db, if_pos h1, if_pos h2]
  · rw [calculate_growth_rate_db, if_pos h1, if_neg (by rw [h2]; exact lt_irrefl 0)]
  · rw [calculate_growth_rate_db, if_neg h1]

/-- Sample store for the C1 witness: a single paid invoice of 100 on
2024-01-11 and nothing in the preceding day. -/
def growthStore : Store :=
  { invoices := [{ user_id := "u", total_amount := 100, payment_status := "paid",
                   created_at := ⟨2024, 1, 11⟩ }],
    customers := [] }

/-- Witness for C1 at the one-day window 2024-01-11..2024-01-11: the previous
window 2024-01-10..2024-01-10 is empty, the current revenue is positive, and
the routine indeed returns 100. -/
theorem growth_rate_previous_window_comparison_witness :
    (⟨2024, 1, 11⟩ : Date).ord ≤ (⟨2024, 1, 11⟩ : Date).ord ∧
    calculate_growth_rate growthStore.db "u" ⟨2024, 1, 11⟩ ⟨2024, 1, 11⟩ "revenue" = 100 := by
  refine ⟨le_refl _, ?_⟩
  exact (growth_rate_previous_window_comparison growthStore "u" ⟨2024, 1, 11⟩ ⟨2024, 1, 11⟩
      (le_refl _)).1 (by decide) (by norm_num [Store.windowPaidRevenue, Store.paidInWindow,
        growthStore, invoicePaidWindowP, amountSum, dateLE])

/-! ### Unfolding the calculators over a working store -/

/-- Running the financial calculator against a working store reduces to the
early empty-window return or the explicitly computed record. -/
theorem get_financial_metrics_db (st : Store) (uid : String) (s e : Date) :
    get_financial_metrics st.db uid s e =
      (if (st.invoicesInWindow uid s e).isEmpty then {}
       else
        let invoices := st.invoicesInWindow uid s e
        let paid_invoices := (invoices.filter (fun i => i.payment_status == "paid")).length
        let total_revenue := amountSum (invoices.filter (fun i => i.payment_status == "paid"))
        { total_revenue := total_revenue
          total_invoices := invoices.length
          paid_invoices := paid_invoices
          pending_invoices := (invoices.filter (fun i => i.payment_status == "pending")).length
          overdue_invoices := (invoices.filter (fun i => i.status == "overdue")).length
          average_invoice_value := if paid_invoices > 0 then total_revenue / paid_invoices else 0
          total_outstanding := amountSum (invoices.filter (fun i => i.payment_status != "paid"))
          collection_rate :=
            if invoices.length > 0 then (paid_invoices : ℚ) / invoices.length * 100 else 0
          growth_rate := calculate_growth_rate st.db uid s e "revenue"
          profit_margin := 85 }) :=
  rfl

/-- Running the sales calculator against a working store reduces to the early
empty return or the explicitly computed record. -/
theorem get_sales_metrics_db (st : Store) (uid : String) (s e : Date) :
    get_sales_metrics st.db uid s e =
      (if (st.paidInWindow uid s e).isEmpty then {}
       else
        let sales := st.paidInWindow uid s e
        { total_sales := amountSum sales
          sales_count := sales.length
          average_sale_value := if sales.length > 0 then amountSum sales / sales.length else 0
          top_selling_periods := calculate_top_selling_periods sales
          sales_trend := calculate_sales_trend st.db uid s e
          conversion_rate := 75
          recurring_revenue := amountSum sales * (6 / 10) }) :=
  rfl

/-! ### Claim C2: the financial growth_rate field -/

/-- Windows containing a paid invoice also contain an invoice. -/
theorem invoicesInWindow_ne_of_paid (st : Store) (uid : String) (s e : Date)
    (h : st.paidInWindow uid s e ≠ []) : st.invoicesInWindow uid s e ≠ [] := by
  obtain ⟨i, hi⟩ := List.exists_mem_of_ne_nil _ h
  have hm := List.mem_filter.mp hi
  intro hnil
  rw [Store.invoicesInWindow, List.filter_eq_nil_iff] at hnil
  refine hnil i hm.1 ?_
  have hb := hm.2
  simp only [invoicePaidWindowP, Bool.and_eq_true] at hb
  simp only [invoiceUserWindowP, Bool.and_eq_true]
  exact ⟨hb.1.1, hb.2⟩

/-- C2, amended.  Whenever the window contains at least one invoice for the
user, the growth_rate field of the financial calculator equals the value of
the growth-rate routine for the same user and window with metric "revenue".
(For a window with no invoices the calculator returns the default record with
growth_rate 0 without consulting the routine — see the counterexample.) -/
theorem financial_growth_rate_field (st : Store) (uid : String) (s e : Date)
    (h : st.invoicesInWindow uid s e ≠ []) :
    (get_financial_metrics st.db uid s e).growth_rate =
      calculate_growth_rate st.db uid s e "revenue" := by
  rw [get_financial_metrics_db,
    if_neg (fun hc => h (List.isEmpty_iff.mp hc))]

/-- Witness for C2 (amended) using the sample store with one paid invoice
inside the window. -/
theorem financial_growth_rate_field_witness :
    growthStore.invoicesInWindow "u" ⟨2024, 1, 11⟩ ⟨2024, 1, 11⟩ ≠ [] ∧
    (get_financial_metrics growthStore.db "u" ⟨2024, 1, 11⟩ ⟨2024, 1, 11⟩).growth_rate =
      calculate_growth_rate growthStore.db "u" ⟨2024, 1, 11⟩ ⟨2024, 1, 11⟩ "revenue" :=
  ⟨by decide, financial_growth_rate_field growthStore "u" ⟨2024, 1, 11⟩ ⟨2024, 1, 11⟩ (by decide)⟩

/-- Sample store breaking C2 as originally stated: a paid invoice of 100 lies
in the previous window (2024-01-10) while the report window 2024-01-11 is
empty. -/
def growthGapStore : Store :=
  { invoices := [{ user_id := "u", total_amount := 100, payment_status := "paid",
                   created_at := ⟨2024, 1, 10⟩ }],
    customers := [] }

/-- Counterexample to C2 as stated: on a window with no invoices the
financial calculator reports growth_rate 0, while the growth-rate routine
applied to the same user and window returns −100 (the previous window has
revenue 100, the current one 0). -/
theorem financial_growth_rate_field_cex :
    (get_financial_metrics growthGapStore.db "u" ⟨2024, 1, 11⟩ ⟨2024, 1, 11⟩).growth_rate ≠
      calculate_growth_rate growthGapStore.db "u" ⟨2024, 1, 11⟩ ⟨2024, 1, 11⟩ "revenue" := by
  have h1 : (get_financial_metrics growthGapStore.db "u" ⟨2024, 1, 11⟩ ⟨2024, 1, 11⟩).growth_rate
      = 0 := rfl
  have hcur : growthGapStore.paidInWindow "u" ⟨2024, 1, 11⟩ ⟨2024, 1, 11⟩ = [] := by decide
  have hprev : growthGapStore.paidInWindow "u"
      (((⟨2024, 1, 11⟩ : Date).subDays 1).subDays
        ((⟨2024, 1, 11⟩ : Date).ord - (⟨2024, 1, 11⟩ : Date).ord))
      ((⟨2024, 1, 11⟩ : Date).subDays 1) = growthGapStore.invoices := by decide
  have h2 : calculate_growth_rate growthGapStore.db "u" ⟨2024, 1, 11⟩ ⟨2024, 1, 11⟩ "revenue"
      = -100 := by
    rw [calculate_growth_rate_db]
    unfold Store.windowPaidRevenue
    rw [hcur, hprev]
    norm_num [growthGapStore, amountSum]
  rw [h1, h2]
  norm_num

/-! ### Claim C3: behaviour on empty data -/

/-- The store with no documents at all. -/
def emptyStore : Store :=
  { invoices := [], customers := [] }

/-- A filter by a stronger predicate of a list whose filter by a weaker
predicate is empty is empty. -/
theorem filter_eq_nil_of_stronger {α : Type} (l : List α) (p q : α → Bool)
    (h : l.filter p = []) (himp : ∀ a, q a = true → p a = true) : l.filter q = [] := by
  rw [List.filter_eq_nil_iff] at h ⊢
  exact fun a ha hq => h a ha (himp a hq)

/-- C3, amended.  When the store holds no records at all for the user, the
financial and sales calculators return the all-default (zero/empty) record,
and the customer calculator returns the record whose data-derived fields are
all zero/empty but whose fixed policy fields are customer_retention_rate 90
and churn_rate 5 (not their model defaults 0).  No calculator raises: each is
a total function of the store contents. -/
theorem empty_data_calculator_results (st : Store) (uid : String) (s e : Date)
    (hI : st.invoices.filter (fun i => i.user_id == uid) = [])
    (hC : st.customers.filter (fun c => c.user_id == uid) = []) :
    get_financial_metrics st.db uid s e = {} ∧
    get_sales_metrics st.db uid s e = {} ∧
    get_customer_metrics st.db uid s e =
      { customer_retention_rate := 90, churn_rate := 5 } := by
  have hwin : st.invoicesInWindow uid s e = [] :=
    filter_eq_nil_of_stronger _ _ _ hI (fun a ha => by
      simp only [invoiceUserWindowP, Bool.and_eq_true] at ha
      exact ha.1)
  have hpaidwin : st.paidInWindow uid s e = [] :=
    filter_eq_nil_of_stronger _ _ _ hI (fun a ha => by
      simp only [invoicePaidWindowP, Bool.and_eq_true] at ha
      exact ha.1.1)
  have hpaid : st.invoices.filter (invoicePaidP uid) = [] :=
    filter_eq_nil_of_stronger _ _ _ hI (fun a ha => by
      simp only [invoicePaidP, Bool.and_eq_true] at ha
      exact ha.1)
  have hcwin : st.customers.filter (customerUserWindowP uid s e) = [] :=
    filter_eq_nil_of_stronger _ _ _ hC (fun a ha => by
      simp only [customerUserWindowP, Bool.and_eq_true] at ha
      exact ha.1)
  have hcall : st.customers.filter (customerUserP uid) = [] := hC
  have hwin' : st.invoices.filter (invoiceUserWindowP uid s e) = [] := hwin
  refine ⟨?_, ?_, ?_⟩
  · rw [get_financial_metrics_db, hwin]
    rfl
  · rw [get_sales_metrics_db, hpaidwin]
    rfl
  · simp only [get_customer_metrics, db_findCustomers, db_findInvoices, hcall, hcwin, hpaid,
      hwin']
    rfl

/-- Witness for C3 (amended) on the completely empty store. -/
theorem empty_data_calculator_results_witness :
    (emptyStore.invoices.filter (fun i => i.user_id == "u") = [] ∧
      emptyStore.customers.filter (fun c => c.user_id == "u") = []) ∧
    get_customer_metrics emptyStore.db "u" ⟨2024, 1, 1⟩ ⟨2024, 1, 31⟩ =
      { customer_retention_rate := 90, churn_rate := 5 } :=
  ⟨⟨rfl, rfl⟩,
    (empty_data_calculator_results emptyStore "u" ⟨2024, 1, 1⟩ ⟨2024, 1, 31⟩ rfl rfl).2.2⟩

/-- Counterexample to C3 as stated: on a store with no matching records the
customer calculator does not return the all-zero default record — its
customer_retention_rate is the fixed constant 90, not the default 0. -/
theorem empty_data_calculator_results_cex :
    get_customer_metrics emptyStore.db "u" ⟨2024, 1, 1⟩ ⟨2024, 1, 31⟩ ≠
      ({} : CustomerMetrics) := by
  decide

/-! ### Claim C7: the fixed policy constants -/

/-- C7, amended.  The customer calculator's customer_retention_rate 90.0 and
churn_rate 5.0 hold for every input; profit_margin is 85.0 whenever the
window contains at least one invoice of any status for the user (the
financial calculator computes its record from that non-empty window), and
conversion_rate is 75.0 whenever the window contains at least one paid
invoice for the user.  (On a window with no matching records the financial
and sales calculators instead return their all-zero default records, so
profit_margin and conversion_rate are then 0 — see the counterexample.) -/
theorem fixed_policy_constants (st : Store) (uid : String) (s e : Date) :
    (st.invoicesInWindow uid s e ≠ [] →
      (get_financial_metrics st.db uid s e).profit_margin = 85) ∧
    (st.paidInWindow uid s e ≠ [] →
      (get_sales_metrics st.db uid s e).conversion_rate = 75) ∧
    (get_customer_metrics st.db uid s e).customer_retention_rate = 90 ∧
    (get_customer_metrics st.db uid s e).churn_rate = 5 := by
  refine ⟨fun h => ?_, fun h => ?_, rfl, rfl⟩
  · rw [get_financial_metrics_db, if_neg (fun hc => h (List.isEmpty_iff.mp hc))]
  · rw [get_sales_metrics_db, if_neg (fun hc => h (List.isEmpty_iff.mp hc))]

/-- Store whose only invoice in the window is pending (not paid). -/
def pendingStore : Store :=
  { invoices := [{ user_id := "u", total_amount := 50, payment_status := "pending",
                   created_at := ⟨2024, 1, 11⟩ }],
    customers := [] }

/-- Witness for C7 (amended): profit_margin is 85 already on a window whose
only invoice is pending, conversion_rate is 75 on a window with a paid
invoice, and the customer constants hold on the empty store. -/
theorem fixed_policy_constants_witness :
    (pendingStore.invoicesInWindow "u" ⟨2024, 1, 11⟩ ⟨2024, 1, 11⟩ ≠ [] ∧
      (get_financial_metrics pendingStore.db "u" ⟨2024, 1, 11⟩ ⟨2024, 1, 11⟩).profit_margin
        = 85) ∧
    (growthStore.paidInWindow "u" ⟨2024, 1, 11⟩ ⟨2024, 1, 11⟩ ≠ [] ∧
      (get_sales_metrics growthStore.db "u" ⟨2024, 1, 11⟩ ⟨2024, 1, 11⟩).conversion_rate
        = 75) ∧
    (get_customer_metrics emptyStore.db "u" ⟨2024, 1, 11⟩ ⟨2024, 1, 11⟩).customer_retention_rate
      = 90 ∧
    (get_customer_metrics emptyStore.db "u" ⟨2024, 1, 11⟩ ⟨2024, 1, 11⟩).churn_rate = 5 :=
  ⟨⟨by decide,
      (fixed_policy_constants pendingStore "u" ⟨2024, 1, 11⟩ ⟨2024, 1, 11⟩).1 (by decide)⟩,
    ⟨by decide,
      (fixed_policy_constants growthStore "u" ⟨2024, 1, 11⟩ ⟨2024, 1, 11⟩).2.1 (by decide)⟩,
    (fixed_policy_constants emptyStore "u" ⟨2024, 1, 11⟩ ⟨2024, 1, 11⟩).2.2.1,
    (fixed_policy_constants emptyStore "u" ⟨2024, 1, 11⟩ ⟨2024, 1, 11⟩).2.2.2⟩

/-- Counterexample to C7 as stated: on a window with no matching records the
financial and sales calculators return their default records, whose
profit_margin and conversion_rate are 0, not the policy constants. -/
theorem fixed_policy_constants_cex :
    (get_financial_metrics emptyStore.db "u" ⟨2024, 1, 1⟩ ⟨2024, 1, 31⟩).profit_margin ≠ 85 ∧
    (get_sales_metrics emptyStore.db "u" ⟨2024, 1, 1⟩ ⟨2024, 1, 31⟩).conversion_rate ≠ 75 := by
  decide

/-! ### Claim C8: collection-rate bounds -/

/-- C8.  For every store, user and window, the collection_rate of the
financial calculator lies in `[0, 100]`, and it is 0 whenever total_invoices
is 0. -/
theorem collection_rate_bounds (st : Store) (uid : String) (s e : Date) :
    0 ≤ (get_financial_metrics st.db uid s e).collection_rate ∧
    (get_financial_metrics st.db uid s e).collection_rate ≤ 100 ∧
    ((get_financial_metrics st.db uid s e).total_invoices = 0 →
      (get_financial_metrics st.db uid s e).collection_rate = 0) := by
  rw [get_financial_metrics_db]
  cases hl : st.invoicesInWindow uid s e with
  | nil =>
    rw [if_pos (show ([] : List Invoice).isEmpty = true from rfl)]
    exact ⟨le_refl 0, by norm_num, fun _ => rfl⟩
  | cons a t =>
    rw [if_neg (by simp)]
    have hlen : 0 < (a :: t).length := by simp
    have hle : ((a :: t).filter (fun i => i.payment_status == "paid")).length ≤
        (a :: t).length := List.length_filter_le _ _
    refine ⟨?_, ?_, ?_⟩
    · show (0 : ℚ) ≤ if (a :: t).length > 0 then
        (((a :: t).filter (fun i => i.payment_status == "paid")).length : ℚ) /
          ((a :: t).length : ℚ) * 100 else 0
      rw [if_pos hlen]
      positivity
    · show (if (a :: t).length > 0 then
        (((a :: t).filter (fun i => i.payment_status == "paid")).length : ℚ) /
          ((a :: t).length : ℚ) * 100 else 0) ≤ 100
      rw [if_pos hlen]
      have hdiv : (((a :: t).filter (fun i => i.payment_status == "paid")).length : ℚ) /
          ((a :: t).length : ℚ) ≤ 1 := by
        rw [div_le_one (by positivity)]
        exact_mod_cast hle
      nlinarith
    · intro hti
      simp at hti

/-- Witness for C8: the bounds hold on the sample store, and on the empty
store total_invoices is 0 and the rate is 0. -/
theorem collection_rate_bounds_witness :
    (0 ≤ (get_financial_metrics growthStore.db "u" ⟨2024, 1, 11⟩ ⟨2024, 1, 11⟩).collection_rate ∧
      (get_financial_metrics growthStore.db "u" ⟨2024, 1, 11⟩ ⟨2024, 1, 11⟩).collection_rate
        ≤ 100) ∧
    ((get_financial_metrics emptyStore.db "u" ⟨2024, 1, 1⟩ ⟨2024, 1, 31⟩).total_invoices = 0 ∧
      (get_financial_metrics emptyStore.db "u" ⟨2024, 1, 1⟩ ⟨2024, 1, 31⟩).collection_rate = 0) :=
  ⟨⟨(collection_rate_bounds growthStore "u" ⟨2024, 1, 11⟩ ⟨2024, 1, 11⟩).1,
      (collection_rate_bounds growthStore "u" ⟨2024, 1, 11⟩ ⟨2024, 1, 11⟩).2.1⟩,
    by decide,
    (collection_rate_bounds emptyStore "u" ⟨2024, 1, 1⟩ ⟨2024, 1, 31⟩).2.2 (by decide)⟩

/-! ### Claim C4: behaviour on store failure -/

/-- C4, amended.  When the data store fails, every calculator catches the
exception locally (logging it) and returns its default-valued record to the
caller; no failure propagates out of a calculator.  The return types carry no
error channel at all. -/
theorem store_failure_returns_defaults (msg uid : String) (s e : Date) :
    get_financial_metrics (failDB msg) uid s e = {} ∧
    get_sales_metrics (failDB msg) uid s e = {} ∧
    get_customer_metrics (failDB msg) uid s e = {} :=
  ⟨rfl, rfl, rfl⟩

/-- Counterexample to C4 as stated: with the store unavailable, the financial
calculator returns the default-valued FinancialMetrics record to its caller —
the failure is recovered locally, not propagated as a fatal error. -/
theorem store_failure_propagation_cex :
    get_financial_metrics (failDB "store unavailable") "u" ⟨2024, 1, 1⟩ ⟨2024, 1, 31⟩ =
      ({} : FinancialMetrics) ∧
    get_sales_metrics (failDB "store unavailable") "u" ⟨2024, 1, 1⟩ ⟨2024, 1, 31⟩ =
      ({} : SalesMetrics) ∧
    get_customer_metrics (failDB "store unavailable") "u" ⟨2024, 1, 1⟩ ⟨2024, 1, 31⟩ =
      ({} : CustomerMetrics) :=
  ⟨rfl, rfl, rfl⟩

/-! ### Claim C9: month period resolution -/

set_option maxHeartbeats 1600000 in
/-- C9.  For every (valid) request date, resolving the named period "month"
yields the window from the first calendar day of the current month through
its last calendar day: the end day is `daysInMonth`, so February of a leap
year ends on the 29th and of a non-leap year on the 28th, and 30/31-day
months end on the 30th/31st. -/
theorem month_period_resolution (today : Date) (h : today.Valid) :
    get_date_range "month" today =
      ({ year := today.year, month := today.month, day := 1 },
       { year := today.year, month := today.month,
         day := daysInMonth today.year today.month }) := by
  obtain ⟨y, m, dd⟩ := today
  obtain ⟨hm1, hm2, hd1, hd2⟩ := h
  unfold get_date_range
  rw [if_neg (by decide), if_neg (by decide), if_pos (by decide)]
  interval_cases m
  · simp [Date.addDays, Date.nextDay, Date.subDays, Date.prevDay, daysInMonth]
  · by_cases hL : isLeap y <;>
      simp [Date.addDays, Date.nextDay, Date.subDays, Date.prevDay, daysInMonth, hL]
  · simp [Date.addDays, Date.nextDay, Date.subDays, Date.prevDay, daysInMonth]
  · simp [Date.addDays, Date.nextDay, Date.subDays, Date.prevDay, daysInMonth]
  · simp [Date.addDays, Date.nextDay, Date.subDays, Date.prevDay, daysInMonth]
  · simp [Date.addDays, Date.nextDay, Date.subDays, Date.prevDay, daysInMonth]
  · simp [Date.addDays, Date.nextDay, Date.subDays, Date.prevDay, daysInMonth]
  · simp [Date.addDays, Date.nextDay, Date.subDays, Date.prevDay, daysInMonth]
  · simp [Date.addDays, Date.nextDay, Date.subDays, Date.prevDay, daysInMonth]
  · simp [Date.addDays, Date.nextDay, Date.subDays, Date.prevDay, daysInMonth]
  · simp [Date.addDays, Date.nextDay, Date.subDays, Date.prevDay, daysInMonth]
  · simp [Date.addDays, Date.nextDay, Date.subDays, Date.prevDay, daysInMonth]

/-- Witness for C9 on a leap-year February date: the month window of
2024-02-15 runs from 2024-02-01 through 2024-02-29. -/
theorem month_period_resolution_witness :
    (⟨2024, 2, 15⟩ : Date).Valid ∧
    get_date_range "month" ⟨2024, 2, 15⟩ = (⟨2024, 2, 1⟩, ⟨2024, 2, 29⟩) :=
  ⟨by decide, (month_period_resolution ⟨2024, 2, 15⟩ (by decide)).trans (by decide)⟩

/-! ### Claim C10: invoice_status chart on an empty window -/

/-- C10.  For every user and window containing no invoices for that user, the
chart generator invoked with chart_type "invoice_status" returns the empty
list: the grouped data series is empty, the `ChartData` constructor rejects it
(`min_items=1`), and the resulting error is caught and converted into `[]`. -/
theorem invoice_status_chart_empty_window (st : Store) (uid : String) (s e : Date)
    (h : st.invoicesInWindow uid s e = []) :
    generate_chart_data st.db uid "invoice_status" s e = [] := by
  have h1 : st.invoices.filter (invoiceUserWindowP uid s e) = [] := h
  have hb : generate_chart_data_body st.db uid "invoice_status" s e =
      .error "data: ensure this value has at least 1 items" := by
    unfold generate_chart_data_body
    rw [db_findInvoices, h1]
    rfl
  unfold generate_chart_data
  rw [hb]

/-- Witness for C10 on the empty store. -/
theorem invoice_status_chart_empty_window_witness :
    emptyStore.invoicesInWindow "u" ⟨2024, 1, 1⟩ ⟨2024, 1, 31⟩ = [] ∧
    generate_chart_data emptyStore.db "u" "invoice_status" ⟨2024, 1, 1⟩ ⟨2024, 1, 31⟩ = [] :=
  ⟨rfl, invoice_status_chart_empty_window emptyStore "u" ⟨2024, 1, 1⟩ ⟨2024, 1, 31⟩ rfl⟩

/-! ### Claim C5: the daily sales-trend series -/

/-- While enough window remains, each iteration of the trend loop emits one
entry per day, in day order, querying that day's paid invoices. -/
theorem sales_trend_loop_db (st : Store) (uid : String) (e : Date) :
    ∀ (n : Nat) (cur : Date), cur.Valid → cur.ord + n ≤ e.ord + 1 →
      sales_trend_loop st.db uid e n cur =
        .ok ((List.range n).map fun i =>
          { date := cur.addDays i,
            sales := amountSum (st.paidOnDay uid (cur.addDays i)),
            count := (st.paidOnDay uid (cur.addDays i)).length }) := by
  intro n
  induction n with
  | zero => intro cur hv hb; rfl
  | succ k ih =>
    intro cur hv hb
    unfold sales_trend_loop
    rw [if_pos (by simp only [dateLE, decide_eq_true_eq]; omega)]
    rw [db_findInvoices]
    have hnext : cur.nextDay.ord + k ≤ e.ord + 1 := by
      rw [Date.ord_nextDay hv]; omega
    rw [ih cur.nextDay hv.nextDay hnext]
    rw [List.range_succ_eq_map]
    simp only [List.map_cons, List.map_map]
    congr 1

/-- The trend routine over a working store produces exactly one gap-filled
entry per calendar day of the window. -/
theorem calculate_sales_trend_db (st : Store) (uid : String) (s e : Date)
    (hv : s.Valid) (hse : s.ord ≤ e.ord) :
    calculate_sales_trend st.db uid s e =
      (List.range (e.ord - s.ord + 1)).map (fun i =>
        { date := s.addDays i,
          sales := amountSum (st.paidOnDay uid (s.addDays i)),
          count := (st.paidOnDay uid (s.addDays i)).length }) := by
  unfold calculate_sales_trend
  have hfuel : e.ord + 1 - s.ord = e.ord - s.ord + 1 := by omega
  rw [hfuel, sales_trend_loop_db st uid e (e.ord - s.ord + 1) s hv (by omega)]

/-- C5, amended.  For every user and window `[s, e]` with `s ≤ e` that
contains at least one paid invoice for the user, the sales_trend series of
the sales calculator has exactly `(e − s).days + 1` entries, the `i`-th entry
carries the `i`-th calendar day of the window (so the dates are strictly
ascending), its sales figure is the sum of that day's paid invoices, and a
day with no paid invoices has sales 0.  (When the window contains no paid
invoice at all, the calculator instead returns the default record whose
sales_trend is the empty list — see the counterexample.) -/
theorem sales_trend_daily_series (st : Store) (uid : String) (s e : Date)
    (hv : s.Valid) (hse : s.ord ≤ e.ord) (hne : st.paidInWindow uid s e ≠ []) :
    ((get_sales_metrics st.db uid s e).sales_trend).length = e.ord - s.ord + 1 ∧
    (∀ i (hi : i < ((get_sales_metrics st.db uid s e).sales_trend).length),
      (((get_sales_metrics st.db uid s e).sales_trend).get ⟨i, hi⟩).date = s.addDays i ∧
      (((get_sales_metrics st.db uid s e).sales_trend).get ⟨i, hi⟩).sales =
        amountSum (st.paidOnDay uid (s.addDays i))) ∧
    (∀ i j (hi : i < ((get_sales_metrics st.db uid s e).sales_trend).length)
       (hj : j < ((get_sales_metrics st.db uid s e).sales_trend).length), i < j →
      (((get_sales_metrics st.db uid s e).sales_trend).get ⟨i, hi⟩).date.ord <
        (((get_sales_metrics st.db uid s e).sales_trend).get ⟨j, hj⟩).date.ord) ∧
    (∀ i (hi : i < ((get_sales_metrics st.db uid s e).sales_trend).length),
      st.paidOnDay uid (s.addDays i) = [] →
      (((get_sales_metrics st.db uid s e).sales_trend).get ⟨i, hi⟩).sales = 0) := by
  have htr : (get_sales_metrics st.db uid s e).sales_trend =
      calculate_sales_trend st.db uid s e := by
    rw [get_sales_metrics_db, if_neg (fun hc => hne (List.isEmpty_iff.mp hc))]
  rw [htr, calculate_sales_trend_db st uid s e hv hse]
  refine ⟨by simp, fun i hi => ?_, fun i j hi hj hij => ?_, fun i hi hnil => ?_⟩
  · simp only [List.get_eq_getElem, List.getElem_map, List.getElem_range]
    exact ⟨by trivial, by trivial⟩
  · simp only [List.get_eq_getElem, List.getElem_map, List.getElem_range]
    rw [Date.ord_addDays hv, Date.ord_addDays hv]
    omega
  · simp only [List.get_eq_getElem, List.getElem_map, List.getElem_range]
    rw [hnil]
    rfl

/-- Witness for C5 (amended) on the sample store: a one-day window containing
one paid invoice yields a trend of length 1. -/
theorem sales_trend_daily_series_witness :
    ((⟨2024, 1, 11⟩ : Date).Valid ∧
      (⟨2024, 1, 11⟩ : Date).ord ≤ (⟨2024, 1, 11⟩ : Date).ord ∧
      growthStore.paidInWindow "u" ⟨2024, 1, 11⟩ ⟨2024, 1, 11⟩ ≠ []) ∧
    ((get_sales_metrics growthStore.db "u" ⟨2024, 1, 11⟩ ⟨2024, 1, 11⟩).sales_trend).length =
      (⟨2024, 1, 11⟩ : Date).ord - (⟨2024, 1, 11⟩ : Date).ord + 1 :=
  ⟨⟨by decide, le_refl _, by decide⟩,
    (sales_trend_daily_series growthStore "u" ⟨2024, 1, 11⟩ ⟨2024, 1, 11⟩
      (by decide) (le_refl _) (by decide)).1⟩

/-- Counterexample to C5 as stated: on a one-day window with no paid invoices
the sales calculator returns the default record, whose sales_trend is empty
rather than a one-entry gap-filled series. -/
theorem sales_trend_daily_series_cex :
    ((get_sales_metrics emptyStore.db "u" ⟨2024, 1, 11⟩ ⟨2024, 1, 11⟩).sales_trend).length ≠
      (⟨2024, 1, 11⟩ : Date).ord - (⟨2024, 1, 11⟩ : Date).ord + 1 := by
  decide

/-! ### Claim C6: the top-customers ranking -/

/-- Lifetime paid revenue per customer: the insertion-ordered dict built from
all paid invoices of the user, regardless of any window. -/
def lifetimeValues (st : Store) (uid : String) : List (String × ℚ) :=
  (st.invoices.filter (invoicePaidP uid)).foldl
    (fun acc invoice =>
      match invoice.customer_id with
      | some cid => if cid ≠ "" then addAmount acc cid invoice.total_amount else acc
      | none => acc) []

/-- The top_customers list of the customer calculator over a working store is
the take-5 of the stable descending sort of the lifetime values, joined
against the customer names. -/
theorem customer_top_customers_db (st : Store) (uid : String) (s e : Date) :
    (get_customer_metrics st.db uid s e).top_customers =
      ((sortDescSnd (lifetimeValues st uid)).take 5).filterMap
        (fun p =>
          match (st.customers.filter (customerUserP uid)).find? (fun c => c.id == p.1) with
          | some customer => some { id := p.1, name := customer.name, value := p.2 }
          | none => none) :=
  rfl

/-- Inserting a pair into a list with the descending-by-value ordering keeps
the subsequence of any fixed value intact, with the new pair in front when it
has that value: the elements passed over are strictly larger. -/
theorem filter_orderedInsert_descSnd (v : ℚ) (a : String × ℚ) (l : List (String × ℚ)) :
    (l.orderedInsert descSnd a).filter (fun p => p.2 == v) =
      if a.2 = v then a :: l.filter (fun p => p.2 == v)
      else l.filter (fun p => p.2 == v) := by
  induction l with
  | nil => by_cases hav : a.2 = v <;> simp [hav]
  | cons b t ih =>
    rw [List.orderedInsert]
    by_cases hr : descSnd a b
    · rw [if_pos hr]
      by_cases hav : a.2 = v <;> simp [List.filter_cons, hav]
    · rw [if_neg hr]
      have hr' : ¬ (b.2 ≤ a.2) := hr
      have hab : a.2 < b.2 := not_le.mp hr'
      by_cases hav : a.2 = v
      · have hbv : ¬ (b.2 = v) := by
          intro hb
          rw [hav] at hab
          rw [hb] at hab
          exact lt_irrefl v hab
        rw [if_pos hav]
        simp only [List.filter_cons]
        rw [ih, if_pos hav]
        simp [hbv]
      · rw [if_neg hav]
        simp only [List.filter_cons]
        rw [ih, if_neg hav]

/-- Stability of the Python descending sort: for every value `v`, the pairs
carrying `v` appear in the sorted list in exactly their original
(first-encountered) order. -/
theorem filter_sortDescSnd (v : ℚ) (l : List (String × ℚ)) :
    (sortDescSnd l).filter (fun p => p.2 == v) = l.filter (fun p => p.2 == v) := by
  induction l with
  | nil => rfl
  | cons a t ih =>
    show (List.orderedInsert descSnd a (sortDescSnd t)).filter _ = _
    rw [filter_orderedInsert_descSnd]
    by_cases hav : a.2 = v <;> simp [List.filter_cons, hav, ih]

/-- C6, amended.  For every user and window, the top_customers list has at
most 5 entries, is ranked by lifetime paid-invoice revenue in descending
order — non-strict at ties, which a stably sorted list keeps in
first-encountered order (last conjunct) — and is computed over all paid
invoices regardless of the window (third conjunct: the list is identical for
every window). -/
theorem top_customers_ranking (st : Store) (uid : String) (s e : Date) :
    (get_customer_metrics st.db uid s e).top_customers.length ≤ 5 ∧
    (get_customer_metrics st.db uid s e).top_customers.Pairwise
      (fun a b => b.value ≤ a.value) ∧
    (∀ s2 e2 : Date, (get_customer_metrics st.db uid s2 e2).top_customers =
      (get_customer_metrics st.db uid s e).top_customers) ∧
    (∀ v : ℚ, (sortDescSnd (lifetimeValues st uid)).filter (fun p => p.2 == v) =
      (lifetimeValues st uid).filter (fun p => p.2 == v)) := by
  refine ⟨?_, ?_, fun s2 e2 => rfl, fun v => filter_sortDescSnd v _⟩
  · rw [customer_top_customers_db]
    exact le_trans (List.length_filterMap_le _ _) (List.length_take_le _ _)
  · rw [customer_top_customers_db]
    have hs : (sortDescSnd (lifetimeValues st uid)).Pairwise descSnd :=
      List.sorted_insertionSort descSnd _
    have ht : ((sortDescSnd (lifetimeValues st uid)).take 5).Pairwise descSnd :=
      hs.sublist (List.take_sublist _ _)
    refine List.pairwise_filterMap.mpr (ht.imp ?_)
    intro p q hpq x hx y hy
    have hx2 : x.value = p.2 := by
      rcases hf : (st.customers.filter (customerUserP uid)).find? (fun c => c.id == p.1)
        with _ | c
      · rw [hf] at hx
        simp at hx
      · rw [hf] at hx
        simp at hx
        rw [← hx]
    have hy2 : y.value = q.2 := by
      rcases hf : (st.customers.filter (customerUserP uid)).find? (fun c => c.id == q.1)
        with _ | c
      · rw [hf] at hy
        simp at hy
      · rw [hf] at hy
        simp at hy
        rw [← hy]
    rw [hx2, hy2]
    exact hpq

/-- Store giving two customers the same lifetime revenue of 100. -/
def tieStore : Store :=
  { invoices := [{ user_id := "u", customer_id := some "c1", total_amount := 100,
                   payment_status := "paid", status := "sent", created_at := ⟨2024, 1, 5⟩ },
                 { user_id := "u", customer_id := some "c2", total_amount := 100,
                   payment_status := "paid", status := "sent", created_at := ⟨2024, 1, 6⟩ }],
    customers := [{ user_id := "u", id := "c1", name := "Alice", created_at := ⟨2024, 1, 2⟩ },
                  { user_id := "u", id := "c2", name := "Bob", created_at := ⟨2024, 1, 3⟩ }] }

/-- Counterexample to the strictness in C6 as stated: with two customers tied
at lifetime revenue 100, both are kept (in first-encountered order), so the
resulting list is not strictly descending in revenue. -/
theorem top_customers_ranking_cex :
    ¬ ((get_customer_metrics tieStore.db "u" ⟨2024, 1, 1⟩ ⟨2024, 1, 31⟩).top_customers.Pairwise
        (fun a b => b.value < a.value)) := by
  decide

end MsmeReports
